import Mathlib

/-!
Verification of the cross-origin fetch pipeline of this jsdom fork.

The definitions below are a shallow embedding of
`src/lib/jsdom/living/xhr/xhr-utils.js` (the fetch engine: `createClient` and
its helpers `getRequestHeader`, `validCORSHeaders`, `validCORSPreflightHeaders`,
`requestErrorSteps`, `setResponseToNetworkError`) and of the protocol dispatch
in `src/lib/jsdom/browser/resources/resource-loader.js` (`fetch`).

Conventions of the embedding:
- JS header objects (plain objects used as string-keyed maps) are association
  lists `List (String × String)` in insertion order; JS objects cannot hold two
  identical keys, which appears as `Nodup` hypotheses on the key list.
- `undefined`/`null`/absent values are `Option.none`; a JS falsy-string test
  (`s ? ... : null`) is explicit.
- The scripted-transport model: an http(s) operation is run against the list of
  responses the transport would deliver, one per issued request, in order.
- Abort signalling is cooperative; `abortFrom = some a` means the signal is set
  just before the handler with resumption index `a` runs.
-/

namespace JsdomFetch

/-! ## Small string utilities mirroring the JS operations used by the source -/

/-- Drops a run of leading spaces and tabs, the greedy tail of one match of the
separator regexp `,[ \t]*` from `headerListSeparatorRegexp`. -/
def dropWsChars : List Char → List Char
  | [] => []
  | c :: rest => if c = ' ' ∨ c = '\t' then dropWsChars rest else c :: rest

theorem dropWsChars_length_le (l : List Char) : (dropWsChars l).length ≤ l.length := by
  induction l with
  | nil => simp [dropWsChars]
  | cons c rest ih =>
      simp only [dropWsChars]
      split
      · exact Nat.le_succ_of_le ih
      · simp

/-- Splitting a character list at every occurrence of the regexp `,[ \t]*`,
as `String.prototype.split(headerListSeparatorRegexp)` does. -/
def splitCommaWsChars (l : List Char) : List (List Char) :=
  match l with
  | [] => [[]]
  | c :: rest =>
      if c = ',' then [] :: splitCommaWsChars (dropWsChars rest)
      else
        match splitCommaWsChars rest with
        | [] => [[c]]
        | s :: ss => (c :: s) :: ss
termination_by l.length
decreasing_by
  · exact Nat.lt_succ_of_le (dropWsChars_length_le rest)
  · simp

/-- JS `s.split(/,[ \t]*/)`. -/
def splitCommaWs (s : String) : List String :=
  (splitCommaWsChars s.data).map (fun cs => String.mk cs)

/-- Models a JS truthiness test on an optional string: `undefined` and the
empty string are falsy. `jsStr v = none` exactly when `v ? ... : null` takes
the `null` arm. -/
def jsStr : Option String → Option String
  | some "" => none
  | v => v

/-- JS `String.prototype.toLowerCase()` on the ASCII strings this code
compares (header names, methods), as a kernel-reducible list map. -/
def lowerStr (s : String) : String := String.mk (s.data.map Char.toLower)

/-- JS `String.prototype.toUpperCase()` on ASCII strings, as a
kernel-reducible list map. -/
def upperStr (s : String) : String := String.mk (s.data.map Char.toUpper)

/-! ## JS object (string-keyed map) operations -/

/-- JS property write `m[k] = v`: overwrite in place when the exact key
exists, append otherwise. -/
def objSet (m : List (String × String)) (k v : String) : List (String × String) :=
  if m.any (fun p => p.1 = k) then m.map (fun p => if p.1 = k then (k, v) else p)
  else m ++ [(k, v)]

/-- JS property read `m[k]` with the exact key. -/
def objGet (m : List (String × String)) (k : String) : Option String :=
  (m.find? (fun p => p.1 = k)).map (fun p => p.2)

/-- Source `getRequestHeader(requestHeaders, header)`: walks `Object.keys`
backwards and returns the value of the last key matching case-insensitively,
or null. -/
def getRequestHeader (m : List (String × String)) (header : String) : Option String :=
  (m.reverse.find? (fun p => lowerStr p.1 = lowerStr header)).map (fun p => p.2)

/-! ## CORS classification (source lines 20-22, 260-262, 390-393) -/

/-- Source `simpleMethods`. -/
def simpleMethods : List String := ["GET", "HEAD", "POST"]

/-- Source `simpleHeaders`. -/
def simpleHeaders : List String := ["accept", "accept-language", "content-language", "content-type"]

/-- Authentication credentials (`flag.auth`). -/
structure Auth where
  user : String
  pass : String
deriving DecidableEq, Repr

/-- The request descriptor fields of `xhr.flag` that the fetch engine reads.
`body = none` covers both `undefined` and `null`; `cookieJar` is whether a jar
is configured. -/
structure Flag where
  method : String
  origin : String
  requestHeaders : List (String × String)
  referrer : String
  userAgent : String
  withCredentials : Bool
  auth : Option Auth
  body : Option String
  formData : Bool
  cookieJar : Bool
deriving DecidableEq, Repr

/-- Source line 390: `Object.keys(flag.requestHeaders).filter(header =>
!simpleHeaders.has(header.toLowerCase()))`. -/
def nonSimpleHeaders (requestHeaders : List (String × String)) : List String :=
  (requestHeaders.map Prod.fst).filter (fun h => !(simpleHeaders.contains (lowerStr h)))

/-- Source line 260: `flag.origin !== urlObj.origin`; the target origin is the
origin of the parsed request URL. -/
def crossOrigin (flag : Flag) (targetOrigin : String) : Bool :=
  flag.origin != targetOrigin

/-- Source line 393: the condition deciding that a preflight is issued.
`uploadListener` is `properties.uploadListener`. -/
def requiresPreflightB (flag : Flag) (targetOrigin : String) (uploadListener : Bool) : Bool :=
  crossOrigin flag targetOrigin &&
    (!(simpleMethods.contains (upperStr flag.method))
      || !(nonSimpleHeaders flag.requestHeaders).isEmpty
      || uploadListener)

/-- How an http(s) request is sent. -/
inductive HttpSendPath
  | preflight
  | direct
deriving DecidableEq, Repr

/-- Source lines 393-445: the preflight OPTIONS fetch is issued when the
condition holds, else `doRequest()` sends the real request directly. -/
def httpSendPath (flag : Flag) (targetOrigin : String) (uploadListener : Bool) : HttpSendPath :=
  if requiresPreflightB flag targetOrigin uploadListener then HttpSendPath.preflight
  else HttpSendPath.direct

/-- C1: for every http(s) request, a preflight OPTIONS call is issued iff the
request is cross-origin and at least one of: the upper-cased method is not in
the simple-method set, some request header name is case-insensitively outside
the simple-header set, or an upload-progress listener is attached; otherwise
(in particular for every same-origin request and every simple cross-origin
request) the real request is sent directly with no preflight. -/
theorem c1_preflight_classification (flag : Flag) (targetOrigin : String) (uploadListener : Bool) :
    (httpSendPath flag targetOrigin uploadListener = HttpSendPath.preflight ↔
      (flag.origin ≠ targetOrigin ∧
        (upperStr flag.method ∉ simpleMethods ∨
         (∃ h ∈ flag.requestHeaders.map Prod.fst, lowerStr h ∉ simpleHeaders) ∨
         uploadListener = true))) ∧
    (httpSendPath flag targetOrigin uploadListener = HttpSendPath.direct ↔
      ¬ (flag.origin ≠ targetOrigin ∧
        (upperStr flag.method ∉ simpleMethods ∨
         (∃ h ∈ flag.requestHeaders.map Prod.fst, lowerStr h ∉ simpleHeaders) ∨
         uploadListener = true))) := by
  have hmain : requiresPreflightB flag targetOrigin uploadListener = true ↔
      (flag.origin ≠ targetOrigin ∧
        (upperStr flag.method ∉ simpleMethods ∨
         (∃ h ∈ flag.requestHeaders.map Prod.fst, lowerStr h ∉ simpleHeaders) ∨
         uploadListener = true)) := by
    simp only [requiresPreflightB, crossOrigin, nonSimpleHeaders, Bool.and_eq_true,
      Bool.or_eq_true, Bool.not_eq_true', bne_iff_ne, ne_eq]
    constructor
    · rintro ⟨hco, hrest⟩
      refine ⟨hco, ?_⟩
      rcases hrest with (hm | hh) | hu
      · exact Or.inl (by simpa [List.contains, List.elem_iff] using hm)
      · refine Or.inr (Or.inl ?_)
        rw [List.isEmpty_eq_false_iff_exists_mem] at hh
        obtain ⟨h, hmem⟩ := hh
        rw [List.mem_filter] at hmem
        exact ⟨h, hmem.1, by simpa [List.contains, List.elem_iff] using hmem.2⟩
      · exact Or.inr (Or.inr hu)
    · rintro ⟨hco, hrest⟩
      refine ⟨hco, ?_⟩
      rcases hrest with hm | hh | hu
      · exact Or.inl (Or.inl (by simpa [List.contains, List.elem_iff] using hm))
      · refine Or.inl (Or.inr ?_)
        rw [List.isEmpty_eq_false_iff_exists_mem]
        obtain ⟨h, hmem, hns⟩ := hh
        exact ⟨h, by rw [List.mem_filter]; exact ⟨hmem, by simpa [List.contains, List.elem_iff] using hns⟩⟩
      · exact Or.inr hu
  constructor
  · rw [← hmain]
    unfold httpSendPath
    constructor
    · intro h
      by_contra hb
      rw [Bool.not_eq_true] at hb
      rw [hb] at h
      simp at h
    · intro h
      rw [h]
      simp
  · rw [← hmain]
    unfold httpSendPath
    constructor
    · intro h hb
      rw [hb] at h
      simp at h
    · intro h
      have hb : requiresPreflightB flag targetOrigin uploadListener = false := by
        by_contra hb2
        exact h (by simpa using hb2)
      rw [hb]
      simp

/-! ## Protocol dispatch (xhr-utils.js lines 163-236 and resource-loader.js lines 198-231) -/

/-- The branch `createClient` takes for a given `urlObj.protocol`. There is no
rejection branch: anything that is not `file:` or `data:` falls through to the
network code. -/
inductive ClientBranch
  | fileBranch
  | dataUrlBranch
  | networkBranch
deriving DecidableEq, Repr

/-- Source lines 163, 209: `createClient` tests `urlObj.protocol === "file:"`,
then `=== "data:"`, and otherwise runs the http(s) code unconditionally. -/
def createClientBranch (protocol : String) : ClientBranch :=
  if protocol = "file:" then ClientBranch.fileBranch
  else if protocol = "data:" then ClientBranch.dataUrlBranch
  else ClientBranch.networkBranch

/-- Whether `createClient` calls the transport `fetch` for this protocol: in
the network branch a fetch is always issued (either the preflight OPTIONS
fetch at line 422 or the real-request fetch at line 313 via `doRequest`). -/
def createClientAttemptsFetch (protocol : String) : Bool :=
  match createClientBranch protocol with
  | ClientBranch.networkBranch => true
  | _ => false

/-- The branch `ResourceLoader.fetch` takes for a given `url.scheme` (source
resource-loader.js lines 205-230); `rejectInvalidScheme` is the `default`
case, which returns `Promise.reject` immediately with an invalid-scheme error
and performs no I/O. -/
inductive LoaderBranch
  | dataUrlRead
  | networkRequest
  | fileRead
  | rejectInvalidScheme
deriving DecidableEq, Repr

/-- Source resource-loader.js `switch (url.scheme)`. -/
def resourceLoaderBranch (scheme : String) : LoaderBranch :=
  if scheme = "data" then LoaderBranch.dataUrlRead
  else if scheme = "http" then LoaderBranch.networkRequest
  else if scheme = "https" then LoaderBranch.networkRequest
  else if scheme = "file" then LoaderBranch.fileRead
  else LoaderBranch.rejectInvalidScheme

/-- C8 counterexample: the claim says a request whose scheme is none of
file/data/http/https fails immediately with no network I/O attempted; but
`createClient` routes an `ftp:` URL to the network branch, where a transport
fetch is issued. -/
theorem c8_counterexample :
    ("ftp:" ≠ "file:" ∧ "ftp:" ≠ "data:" ∧ "ftp:" ≠ "http:" ∧ "ftp:" ≠ "https:") ∧
    createClientAttemptsFetch "ftp:" = true := by
  constructor
  · refine ⟨?_, ?_, ?_, ?_⟩ <;> decide
  · rfl

/-- C8 amended: the resource loader's `fetch` rejects a scheme that is none of
data/http/https/file immediately with an invalid-scheme error and no I/O,
while `createClient` checks only `file:` and `data:` and passes every other
protocol to the network-fetch path, so a transport fetch is attempted there. -/
theorem c8_scheme_dispatch :
    (∀ s : String, s ≠ "data" → s ≠ "http" → s ≠ "https" → s ≠ "file" →
      resourceLoaderBranch s = LoaderBranch.rejectInvalidScheme) ∧
    (∀ p : String, p ≠ "file:" → p ≠ "data:" → createClientAttemptsFetch p = true) := by
  constructor
  · intro s h1 h2 h3 h4
    simp [resourceLoaderBranch, h1, h2, h3, h4]
  · intro p h1 h2
    simp [createClientAttemptsFetch, createClientBranch, h1, h2]

/-- C8 witness: the amended statement applied to the concrete scheme gopher. -/
theorem c8_scheme_dispatch_witness :
    resourceLoaderBranch "gopher" = LoaderBranch.rejectInvalidScheme ∧
    createClientAttemptsFetch "gopher:" = true := by
  exact ⟨c8_scheme_dispatch.1 "gopher" (by decide) (by decide) (by decide) (by decide),
    c8_scheme_dispatch.2 "gopher:" (by decide) (by decide)⟩

/-! ## Error steps and network-error reset (xhr-utils.js lines 111-144) -/

/-- The XHR response-facing state touched by `requestErrorSteps` and
`setResponseToNetworkError`. Fields named as in the source; `xhr.properties`
fields are flattened in. -/
structure XhrState where
  readyState : Nat
  send : Bool
  responseCache : Option String
  responseTextCache : Option String
  responseXMLCache : Option String
  responseHeaders : List (String × String)
  status : Nat
  statusText : String
  uploadComplete : Bool
  uploadListener : Bool
  synchronous : Bool
deriving DecidableEq, Repr

/-- Source `setResponseToNetworkError(xhr)` (lines 138-144). -/
def setResponseToNetworkError (x : XhrState) : XhrState :=
  { x with responseCache := none, responseTextCache := none, responseXMLCache := none,
           responseHeaders := [], status := 0, statusText := "" }

/-- Which object an event is fired on. -/
inductive EvTarget
  | xhr
  | upload
deriving DecidableEq, Repr

/-- One `fireAnEvent` call, together with the XHR state an observer of that
event reads. -/
structure Fired where
  name : String
  target : EvTarget
  state : XhrState
deriving DecidableEq, Repr

/-- Source `requestErrorSteps(xhr, event, exception)` (lines 111-136): set
readyState DONE and send false, reset the response to the network-error shape,
then either throw (synchronous flag; the Bool result) or fire
readystatechange, the upload events when applicable, and the terminal event
plus loadend. The returned list records every fired event with the state it
observes. -/
def requestErrorSteps (x0 : XhrState) (event : String) : XhrState × List Fired × Bool :=
  let x1 := { x0 with readyState := 4, send := false }
  let x2 := setResponseToNetworkError x1
  if x2.synchronous then (x2, [], true)
  else
    let preUpload := [Fired.mk "readystatechange" EvTarget.xhr x2]
    let stepUpload :=
      if !x2.uploadComplete then
        let x3 := { x2 with uploadComplete := true }
        if x3.uploadListener then
          (x3, [Fired.mk event EvTarget.upload x3, Fired.mk "loadend" EvTarget.upload x3])
        else (x3, ([] : List Fired))
      else (x2, ([] : List Fired))
    let x3 := stepUpload.1
    (x3, preUpload ++ stepUpload.2 ++ [Fired.mk event EvTarget.xhr x3, Fired.mk "loadend" EvTarget.xhr x3], false)

/-- The canonical network-error response shape of the claim: status 0, empty
status text, empty headers, null body and response caches. -/
def networkErrorShape (x : XhrState) : Bool :=
  x.status == 0 && x.statusText == "" && x.responseHeaders.isEmpty &&
  x.responseCache.isNone && x.responseTextCache.isNone && x.responseXMLCache.isNone

/-- C9: whenever an operation ends in error, `requestErrorSteps` resets the
response state to the canonical network-error shape before any notification
fires, so the final state and the state observed by every fired event (in
particular the error event) are the network-error shape. -/
theorem c9_error_resets_response (x0 : XhrState) (event : String) :
    networkErrorShape (requestErrorSteps x0 event).1 = true ∧
    ((requestErrorSteps x0 event).2.1.all (fun f => networkErrorShape f.state)) = true := by
  cases hs : x0.synchronous <;> cases hc : x0.uploadComplete <;> cases hl : x0.uploadListener <;>
    simp [requestErrorSteps, setResponseToNetworkError, networkErrorShape, hs, hc, hl]

/-! ## Data-URL branch (xhr-utils.js lines 209-236) -/

/-- The result of `parseDataURL` that the branch reads: the media type string
and the decoded body bytes. Parsing itself is an external utility. -/
structure DataURLParsed where
  mimeType : String
  body : List Nat
deriving DecidableEq, Repr

/-- Client-visible events of the data-URL branch. -/
inductive DataEv
  | response (status : Nat) (headers : List (String × String))
  | dataChunk (bytes : List Nat)
  | ended
  | errorEv
deriving DecidableEq, Repr

/-- Scheduled client events of the data-URL branch, as pairs of a scheduling
tick and an event. Tick 0 is the synchronous `createClient` call itself; each
`process.nextTick` level adds one. On parse success the code emits `response`
(statusCode 200, headers holding the decoded content-type) inside one
`process.nextTick`, and `data` then `end` inside a nested `process.nextTick`;
on parse failure it emits `error` inside one `process.nextTick` and nothing
else. -/
def dataBranchSchedule (parsed : Option DataURLParsed) : List (Nat × DataEv) :=
  match parsed with
  | none => [(1, DataEv.errorEv)]
  | some p =>
      [(1, DataEv.response 200 [("content-type", p.mimeType)]),
       (2, DataEv.dataChunk p.body), (2, DataEv.ended)]

/-- Source lines 221-223: `client.abort = () => { // do nothing }` — the
data-URL abort handler emits nothing and cancels nothing. -/
def dataBranchAbortEmits : List DataEv := []

/-- C10: a well-formed data URL yields `response` carrying the decoded media
type as the content-type header, then `data` with the decoded bytes and `end`
on a later tick; nothing fires synchronously within the call that started the
operation (every tick is at least 1); a malformed data URL yields `error` and
never a `response`; abort is a no-op. -/
theorem c10_data_url (parsed : Option DataURLParsed) :
    ((dataBranchSchedule parsed).all (fun te => decide (1 ≤ te.1))) = true ∧
    (match parsed with
     | some p => dataBranchSchedule parsed =
         [(1, DataEv.response 200 [("content-type", p.mimeType)]),
          (2, DataEv.dataChunk p.body), (2, DataEv.ended)]
     | none => dataBranchSchedule parsed = [(1, DataEv.errorEv)]) ∧
    dataBranchAbortEmits = [] := by
  cases parsed <;> simp [dataBranchSchedule, dataBranchAbortEmits]

/-! ## Abort observation at suspension points (xhr-utils.js lines 314-318, 377-383, 436-442) -/

/-- A JS value as far as truthiness tests in the source go. -/
inductive JsValue
  | undefined
  | boolVal (b : Bool)
  | strVal (s : String)
deriving DecidableEq, Repr

/-- JS truthiness. -/
def jsTruthy : JsValue → Bool
  | JsValue.undefined => false
  | JsValue.boolVal b => b
  | JsValue.strVal s => !(s == "")

/-- Events a catch handler can emit. -/
inductive Ev
  | redirect
  | response
  | data
  | ended
  | abort
  | error
deriving DecidableEq, Repr

/-- Models the JS member access `abortController.signal.abort` at source line
437: an AbortSignal exposes `aborted`, `onabort` and the EventTarget methods,
but no `abort` own property (that is a method of the controller), so the read
evaluates to `undefined` whatever the aborted state of the signal is. -/
def signalAbortProperty (_aborted : Bool) : JsValue := JsValue.undefined

/-- Source lines 436-442: the catch handler of the preflight OPTIONS fetch
emits `abort` when `abortController.signal.abort` is truthy and `error`
otherwise. -/
def preflightCatchEmits (aborted : Bool) : Ev :=
  if jsTruthy (signalAbortProperty aborted) then Ev.abort else Ev.error

/-- Source lines 377-383: the catch handler of every real-request fetch tests
`abortController.signal.aborted` and emits `abort` when it is set, `error`
otherwise. -/
def realRequestCatchEmits (aborted : Bool) : Ev :=
  if aborted then Ev.abort else Ev.error

/-- C4 divergence: when the abort signal is set while the operation is
suspended at the preflight OPTIONS fetch, the rejected promise reaches the
preflight catch handler, which emits `error` — because line 437 tests the
nonexistent `signal.abort` property instead of `signal.aborted` — while the
same situation at a real-request hop emits `abort` as the claim demands. -/
theorem c4_preflight_abort_emits_error :
    preflightCatchEmits true = Ev.error ∧ realRequestCatchEmits true = Ev.abort := by
  constructor <;> rfl

/-! ## Preflight response validation (xhr-utils.js lines 75-109 and 422-442) -/

/-- Source `validCORSHeaders(xhr, response, flag, properties, origin)` (lines
75-91), with `respHeaders name` standing for the JS property read
`response.headers[name]`: the trimmed Access-Control-Allow-Origin value must
be `*` or the origin, and with credentials the trimmed
Access-Control-Allow-Credentials value must be `true`; on failure the error is
dispatched and false returned. -/
def validCORSHeaders (respHeaders : String → Option String) (withCredentials : Bool)
    (origin : String) : Bool :=
  let acao := (jsStr (respHeaders "access-control-allow-origin")).map String.trim
  if !(acao == some "*" || acao == some origin) then false
  else
    let acac := (jsStr (respHeaders "access-control-allow-credentials")).map String.trim
    if withCredentials && !(acac == some "true") then false
    else true

/-- Source `validCORSPreflightHeaders(xhr, response, flag, properties)` (lines
93-109): `validCORSHeaders` with `properties.origin`, then every key of
`flag.requestHeaders` whose lower-cased name is neither a simple header nor in
the split Access-Control-Allow-Headers list is forbidden; valid when no header
is forbidden. -/
def validCORSPreflightHeaders (respHeaders : String → Option String) (withCredentials : Bool)
    (requestHeaders : List (String × String)) (origin : String) : Bool :=
  if !(validCORSHeaders respHeaders withCredentials origin) then false
  else
    let acah :=
      match jsStr (respHeaders "access-control-allow-headers") with
      | some s => splitCommaWs (lowerStr s.trim)
      | none => []
    let forbiddenHeaders := (requestHeaders.map Prod.fst).filter
      (fun header => !(simpleHeaders.contains (lowerStr header)) && !(acah.contains (lowerStr header)))
    forbiddenHeaders.isEmpty

/-- A node-fetch `Response` as the preflight code sees it: a status and the
entries of its `Headers` object (which are reachable through `get`, `has`,
`raw`, `forEach` — not through property indexing). -/
structure NodeResponse where
  status : Nat
  headerEntries : List (String × String)
deriving DecidableEq, Repr

/-- Models the JS property read `resp.headers[name]` performed by
`validCORSHeaders`/`validCORSPreflightHeaders` when `createClient` passes them
the node-fetch response (line 429): a node-fetch `Headers` object keeps its
entries in an internal symbol-keyed map, so indexing it with a header-name
string finds no own property and evaluates to `undefined` for every name. -/
def headersBracketAccess (_resp : NodeResponse) : String → Option String :=
  fun _ => none

/-- Source lines 422-434: after the preflight OPTIONS fetch resolves, the real
request is sent iff the status is within [200,299] (else the handler throws)
and `validCORSPreflightHeaders` accepts the response. -/
def preflightAllowsRealRequest (resp : NodeResponse) (withCredentials : Bool)
    (requestHeaders : List (String × String)) (origin : String) : Bool :=
  if resp.status < 200 ∨ 299 < resp.status then false
  else validCORSPreflightHeaders (headersBracketAccess resp) withCredentials requestHeaders origin

/-- C2: as wired, the preflight validation never lets the real request
through — for every preflight response, including one with status 200,
`Access-Control-Allow-Origin: *` and every requested header allowed, the
bracket read of the CORS headers yields `undefined`, the trimmed
Access-Control-Allow-Origin value is therefore null, and the origin check
dispatches a network error. The claim's success conditions are unreachable. -/
theorem c2_preflight_never_allows (resp : NodeResponse) (withCredentials : Bool)
    (requestHeaders : List (String × String)) (origin : String) :
    preflightAllowsRealRequest resp withCredentials requestHeaders origin = false := by
  unfold preflightAllowsRealRequest validCORSPreflightHeaders validCORSHeaders headersBracketAccess
  simp [jsStr]

/-! ## Basic-auth header value (xhr-utils.js line 322) -/

/-- UTF-8 encoding of one code point, as `Buffer.from(string)` performs it. -/
def utf8EncodeCodepoint (n : Nat) : List Nat :=
  if n < 128 then [n]
  else if n < 2048 then [192 + n / 64, 128 + n % 64]
  else if n < 65536 then [224 + n / 4096, 128 + n / 64 % 64, 128 + n % 64]
  else [240 + n / 262144, 128 + n / 4096 % 64, 128 + n / 64 % 64, 128 + n % 64]

/-- The UTF-8 bytes of a string. -/
def stringUtf8Bytes (s : String) : List Nat :=
  s.data.foldr (fun c acc => utf8EncodeCodepoint c.toNat ++ acc) []

/-- The standard base64 alphabet. -/
def base64Table : List Char :=
  "ABCDEFGHIJKLMNOPQRSTUVWXYZabcdefghijklmnopqrstuvwxyz0123456789+/".data

/-- The base64 character of a 6-bit group. -/
def base64Char (n : Nat) : Char := base64Table.getD n 'A'

/-- Standard base64 of a byte list, with `=` padding, as
`Buffer.prototype.toString("base64")` produces it. -/
def base64EncodeBytes : List Nat → List Char
  | [] => []
  | [a] => [base64Char (a / 4), base64Char (a % 4 * 16), '=', '=']
  | [a, b] => [base64Char (a / 4), base64Char (a % 4 * 16 + b / 16), base64Char (b % 16 * 4), '=']
  | a :: b :: c :: rest =>
      base64Char (a / 4) :: base64Char (a % 4 * 16 + b / 16) :: base64Char (b % 16 * 4 + c / 64) ::
        base64Char (c % 64) :: base64EncodeBytes rest

/-- JS `Buffer.from(s).toString("base64")`. -/
def base64String (s : String) : String := String.mk (base64EncodeBytes (stringUtf8Bytes s))

/-- Source line 322: the retry Authorization header value,
`"Basic " + Buffer.from(user + ":" + pass).toString("base64")`. -/
def authBasic (a : Auth) : String := "Basic " ++ base64String (a.user ++ ":" ++ a.pass)

/-! ## The redirect/auth loop `doRequestTo` (xhr-utils.js lines 309-388)

The transport is scripted: the run is driven by the list of responses the
transport would deliver, one per issued fetch, in order; an empty remainder
means the outstanding fetch rejects (transport failure, or the abort signal).
Only the response fields this code reads are modelled: `resp.status`,
`resp.headers.has("www-authenticate")`, the raw `set-cookie` value list, and
`resp.headers.get("location")`. -/

/-- The response fields read by `doRequestTo`. -/
structure Resp where
  status : Nat
  wwwAuthenticate : Bool
  setCookie : List String
  location : String
deriving DecidableEq, Repr

/-- One issued fetch: its target URL and the exact-key `Authorization` entry
of the shared `requestHeaders` object at issue time. -/
structure Issued where
  uri : String
  authorization : Option String
deriving DecidableEq, Repr

/-- The observable outcome of a run of `doRequestTo`: the client events in
order, the issued fetches in order, every `setCookie(value, uri, ...)` call as
a (value, uri) pair in call order, the surfaced final status (`none` when the
run ends in error or in an abort before a final response), and the URL of the
hop at which the run ended. -/
structure RunResult where
  events : List Ev
  issued : List Issued
  committed : List (String × String)
  finalStatus : Option Nat
  finalUri : String
deriving DecidableEq, Repr

/-- Whether the abort signal is observed set at resumption index `k`;
`abortFrom = some a` scripts the signal as set from index `a` on. -/
def isAborted (abortFrom : Option Nat) (k : Nat) : Bool :=
  match abortFrom with
  | none => false
  | some a => decide (a ≤ k)

/-- Source lines 312-384, the body of `doRequestTo(uri)`; `k` responses have
been consumed so far, and the handlers of the fetch issued here run at
resumption index `k + 1` (the final body read at `k + 2`). In order, mirroring
the source: the resolved handler first checks `signal.aborted` and emits
`abort`; then the 401 retry (`flag.auth` set, exact-key `Authorization` header
unset, `www-authenticate` present) rewrites the Authorization header and
reissues the same URL; then `set-cookie` values are appended to
`gatheredCookies`; then a 3xx status bumps `requestsDone`, fails with the
redirect-loop error when it reaches 21, and otherwise emits `redirect` and
recurses on the Location target; otherwise the gathered cookies are committed
one `setCookie(value, uri)` call per value against the current `uri`, the
response is surfaced, and the body is delivered as `data` then `end` — or the
run ends in `abort` when the signal interrupts the body read. A rejected
fetch (no response arrives) reaches the catch handler, which emits `abort`
when the signal is set and `error` otherwise. -/
def doRequestTo (auth : Option Auth) (abortFrom : Option Nat) (uri : String)
    (authHeader : Option String) (responses : List Resp) (requestsDone : Nat)
    (gathered : List (List String)) (k : Nat) : RunResult :=
  match responses with
  | [] =>
      if isAborted abortFrom (k + 1) then
        { events := [Ev.abort], issued := [⟨uri, authHeader⟩], committed := [],
          finalStatus := none, finalUri := uri }
      else
        { events := [Ev.error], issued := [⟨uri, authHeader⟩], committed := [],
          finalStatus := none, finalUri := uri }
  | resp :: rest =>
      if isAborted abortFrom (k + 1) then
        { events := [Ev.abort], issued := [⟨uri, authHeader⟩], committed := [],
          finalStatus := none, finalUri := uri }
      else if resp.status = 401 ∧ auth.isSome = true ∧ authHeader = none ∧
          resp.wwwAuthenticate = true then
        let a := auth.getD { user := "", pass := "" }
        let r := doRequestTo auth abortFrom uri (some (authBasic a)) rest requestsDone gathered (k + 1)
        { r with issued := ⟨uri, authHeader⟩ :: r.issued }
      else
        let gathered1 := if resp.setCookie.isEmpty then gathered else gathered ++ [resp.setCookie]
        if 300 ≤ resp.status ∧ resp.status < 400 then
          if requestsDone + 1 = 21 then
            { events := [Ev.error], issued := [⟨uri, authHeader⟩], committed := [],
              finalStatus := none, finalUri := uri }
          else
            let r := doRequestTo auth abortFrom resp.location authHeader rest (requestsDone + 1)
              gathered1 (k + 1)
            { r with events := Ev.redirect :: r.events, issued := ⟨uri, authHeader⟩ :: r.issued }
        else
          { events := if isAborted abortFrom (k + 2) then [Ev.response, Ev.abort]
                      else [Ev.response, Ev.data, Ev.ended],
            issued := [⟨uri, authHeader⟩],
            committed := gathered1.flatten.map (fun v => (v, uri)),
            finalStatus := some resp.status,
            finalUri := uri }

/-- The accumulated `gatheredCookies` lists a non-aborted run has collected
when it reaches its last consumed response, walking the scripted responses as
`doRequestTo` does: a 401 that triggers the auth retry contributes nothing,
every other consumed response appends its `set-cookie` values. -/
def collectCookies (auth : Option Auth) (authHeader : Option String)
    (responses : List Resp) (requestsDone : Nat) (gathered : List (List String)) :
    List (List String) :=
  match responses with
  | [] => gathered
  | resp :: rest =>
      if resp.status = 401 ∧ auth.isSome = true ∧ authHeader = none ∧
          resp.wwwAuthenticate = true then
        let a := auth.getD { user := "", pass := "" }
        collectCookies auth (some (authBasic a)) rest requestsDone gathered
      else
        let gathered1 := if resp.setCookie.isEmpty then gathered else gathered ++ [resp.setCookie]
        if 300 ≤ resp.status ∧ resp.status < 400 then
          if requestsDone + 1 = 21 then gathered1
          else collectCookies auth authHeader rest (requestsDone + 1) gathered1
        else gathered1

/-- Unfolding `doRequestTo` at a 401 response that triggers the auth retry
(abort not observed, credentials configured, `Authorization` unset,
`www-authenticate` present): the same URL is refetched with the Basic
Authorization header, and only the issue log gains an entry. -/
theorem doRequestTo_cons_retry (abortFrom : Option Nat) (uri : String)
    (resp : Resp) (rest : List Resp) (d : Nat) (g : List (List String)) (k : Nat) (a : Auth)
    (hab : isAborted abortFrom (k + 1) = false)
    (h401 : resp.status = 401) (hw : resp.wwwAuthenticate = true) :
    doRequestTo (some a) abortFrom uri none (resp :: rest) d g k =
      { doRequestTo (some a) abortFrom uri (some (authBasic a)) rest d g (k + 1) with
        issued := ⟨uri, none⟩ ::
          (doRequestTo (some a) abortFrom uri (some (authBasic a)) rest d g (k + 1)).issued } := by
  simp [doRequestTo, hab, h401, hw]

/-- Unfolding `doRequestTo` at a redirect response below the hop ceiling:
`redirect` is emitted and the run continues at the Location target with the
hop counter bumped and the response's cookies gathered. -/
theorem doRequestTo_cons_redirect (auth : Option Auth) (abortFrom : Option Nat) (uri : String)
    (aH : Option String) (resp : Resp) (rest : List Resp) (d : Nat) (g : List (List String))
    (k : Nat)
    (hab : isAborted abortFrom (k + 1) = false)
    (hret : ¬ (resp.status = 401 ∧ auth.isSome = true ∧ aH = none ∧ resp.wwwAuthenticate = true))
    (h3 : 300 ≤ resp.status ∧ resp.status < 400) (hn : ¬ (d + 1 = 21)) :
    doRequestTo auth abortFrom uri aH (resp :: rest) d g k =
      { doRequestTo auth abortFrom resp.location aH rest (d + 1)
          (if resp.setCookie.isEmpty then g else g ++ [resp.setCookie]) (k + 1) with
        events := Ev.redirect ::
          (doRequestTo auth abortFrom resp.location aH rest (d + 1)
            (if resp.setCookie.isEmpty then g else g ++ [resp.setCookie]) (k + 1)).events,
        issued := ⟨uri, aH⟩ ::
          (doRequestTo auth abortFrom resp.location aH rest (d + 1)
            (if resp.setCookie.isEmpty then g else g ++ [resp.setCookie]) (k + 1)).issued } := by
  simp [doRequestTo, hab, hret, h3, hn]

/-- Unfolding `doRequestTo` at the redirect response whose hop increment
reaches 21: the redirect-loop error is thrown before any further event, and
nothing is committed. -/
theorem doRequestTo_cons_loop_error (auth : Option Auth) (abortFrom : Option Nat) (uri : String)
    (aH : Option String) (resp : Resp) (rest : List Resp) (d : Nat) (g : List (List String))
    (k : Nat)
    (hab : isAborted abortFrom (k + 1) = false)
    (hret : ¬ (resp.status = 401 ∧ auth.isSome = true ∧ aH = none ∧ resp.wwwAuthenticate = true))
    (h3 : 300 ≤ resp.status ∧ resp.status < 400) (hn : d + 1 = 21) :
    doRequestTo auth abortFrom uri aH (resp :: rest) d g k =
      { events := [Ev.error], issued := [⟨uri, aH⟩], committed := [],
        finalStatus := none, finalUri := uri } := by
  simp [doRequestTo, hab, hret, h3, hn]

/-- Unfolding `doRequestTo` at a final (non-redirect, non-retrying) response:
the gathered cookies are committed against this hop's URL and the response is
surfaced. -/
theorem doRequestTo_cons_final (auth : Option Auth) (abortFrom : Option Nat) (uri : String)
    (aH : Option String) (resp : Resp) (rest : List Resp) (d : Nat) (g : List (List String))
    (k : Nat)
    (hab : isAborted abortFrom (k + 1) = false)
    (hret : ¬ (resp.status = 401 ∧ auth.isSome = true ∧ aH = none ∧ resp.wwwAuthenticate = true))
    (h3 : ¬ (300 ≤ resp.status ∧ resp.status < 400)) :
    doRequestTo auth abortFrom uri aH (resp :: rest) d g k =
      { events := if isAborted abortFrom (k + 2) then [Ev.response, Ev.abort]
                  else [Ev.response, Ev.data, Ev.ended],
        issued := [⟨uri, aH⟩],
        committed := (if resp.setCookie.isEmpty then g else g ++ [resp.setCookie]).flatten.map
          (fun v => (v, uri)),
        finalStatus := some resp.status,
        finalUri := uri } := by
  simp [doRequestTo, hab, hret, h3]

/-- Through a block of redirect responses that keeps `requestsDone` at or
below 20, the run emits one `redirect` per hop and ends at the first
non-redirect, non-retrying response after the block. -/
theorem doRequestTo_redirect_chain (auth : Option Auth) (rs : List Resp)
    (hall : ∀ r ∈ rs, 300 ≤ r.status ∧ r.status < 400) :
    ∀ (d : Nat), d + rs.length ≤ 20 →
    ∀ (uri : String) (aH : Option String) (g : List (List String)) (k : Nat)
      (final : Resp) (rest : List Resp),
      ¬ (300 ≤ final.status ∧ final.status < 400) →
      ¬ (final.status = 401 ∧ auth.isSome = true ∧ aH = none ∧ final.wwwAuthenticate = true) →
      (doRequestTo auth none uri aH (rs ++ final :: rest) d g k).events
          = List.replicate rs.length Ev.redirect ++ [Ev.response, Ev.data, Ev.ended] ∧
      (doRequestTo auth none uri aH (rs ++ final :: rest) d g k).finalStatus
          = some final.status ∧
      (doRequestTo auth none uri aH (rs ++ final :: rest) d g k).issued.length
          = rs.length + 1 := by
  induction rs with
  | nil =>
      intro d hd uri aH g k final rest hfin hret
      rw [List.nil_append, doRequestTo_cons_final auth none uri aH final rest d g k rfl hret hfin]
      simp [isAborted]
  | cons r rs' ih =>
      intro d hd uri aH g k final rest hfin hret
      have hr := hall r (by simp)
      have hrret : ¬ (r.status = 401 ∧ auth.isSome = true ∧ aH = none ∧
          r.wwwAuthenticate = true) := by
        rintro ⟨h401, -⟩
        omega
      have hnotloop : ¬ (d + 1 = 21) := by
        have hlen : (r :: rs').length = rs'.length + 1 := by simp
        omega
      have ihall : ∀ x ∈ rs', 300 ≤ x.status ∧ x.status < 400 := by
        intro x hx
        exact hall x (by simp [hx])
      have hd' : (d + 1) + rs'.length ≤ 20 := by
        have hlen : (r :: rs').length = rs'.length + 1 := by simp
        omega
      have ihres := ih ihall (d + 1) hd' r.location aH
        (if r.setCookie.isEmpty then g else g ++ [r.setCookie]) (k + 1) final rest hfin hret
      rw [List.cons_append,
        doRequestTo_cons_redirect auth none uri aH r (rs' ++ final :: rest) d g k rfl hrret hr
          hnotloop]
      refine ⟨?_, ?_, ?_⟩
      · simp only [ihres.1, List.replicate_succ, List.length_cons, List.cons_append]
      · exact ihres.2.1
      · simp only [List.length_cons, ihres.2.2]


/-- A block of redirect responses that drives `requestsDone` to exactly 21
ends in the redirect-loop error after emitting one `redirect` per hop except
the last, and issues no request beyond the one answered by the fatal
redirect. -/
theorem doRequestTo_redirect_loop (auth : Option Auth) (rs : List Resp)
    (hall : ∀ r ∈ rs, 300 ≤ r.status ∧ r.status < 400) :
    ∀ (d : Nat), d + rs.length = 21 → rs ≠ [] →
    ∀ (uri : String) (aH : Option String) (g : List (List String)) (k : Nat)
      (rest : List Resp),
      (doRequestTo auth none uri aH (rs ++ rest) d g k).events
          = List.replicate (rs.length - 1) Ev.redirect ++ [Ev.error] ∧
      (doRequestTo auth none uri aH (rs ++ rest) d g k).issued.length = rs.length ∧
      (doRequestTo auth none uri aH (rs ++ rest) d g k).finalStatus = none := by
  induction rs with
  | nil =>
      intro d hd hne
      exact absurd rfl hne
  | cons r rs' ih =>
      intro d hd hne uri aH g k rest
      have hr := hall r (by simp)
      have hrret : ¬ (r.status = 401 ∧ auth.isSome = true ∧ aH = none ∧
          r.wwwAuthenticate = true) := by
        rintro ⟨h401, -⟩
        omega
      have hlen : (r :: rs').length = rs'.length + 1 := by simp
      by_cases hnil : rs' = []
      · subst hnil
        have h21 : d + 1 = 21 := by
          simp only [List.length_cons, List.length_nil] at hd
          omega
        rw [List.cons_append, List.nil_append,
          doRequestTo_cons_loop_error auth none uri aH r rest d g k rfl hrret hr h21]
        simp
      · have hpos : 1 ≤ rs'.length := by
          cases rs' with
          | nil => exact absurd rfl hnil
          | cons x xs => simp
        have hnotloop : ¬ (d + 1 = 21) := by omega
        have ihall : ∀ x ∈ rs', 300 ≤ x.status ∧ x.status < 400 := by
          intro x hx
          exact hall x (by simp [hx])
        have ihres := ih ihall (d + 1) (by omega) hnil r.location aH
          (if r.setCookie.isEmpty then g else g ++ [r.setCookie]) (k + 1) rest
        rw [List.cons_append,
          doRequestTo_cons_redirect auth none uri aH r (rs' ++ rest) d g k rfl hrret hr
            hnotloop]
        refine ⟨?_, ?_, ?_⟩
        · simp only [ihres.1, List.length_cons]
          have hrw : rs'.length + 1 - 1 = (rs'.length - 1) + 1 := by omega
          rw [hrw, List.replicate_succ, List.cons_append]
        · simp only [List.length_cons, ihres.2.1]
        · exact ihres.2.2

/-- C3: in a non-aborted http(s) operation, a chain of 20 responses with
status in [300,400) followed by a non-redirect (and non-auth-retrying)
response succeeds, with `redirect` emitted exactly 20 times before
`response`; while a chain of 21 redirect responses fails with the
redirect-loop error after 20 `redirect` events, having issued exactly 21
requests and no further attempt. -/
theorem c3_redirect_ceiling (auth : Option Auth) (uri : String) (aH : Option String)
    (rs : List Resp) (hall : ∀ r ∈ rs, 300 ≤ r.status ∧ r.status < 400) :
    (rs.length = 20 → ∀ (final : Resp) (rest : List Resp),
      ¬ (300 ≤ final.status ∧ final.status < 400) →
      ¬ (final.status = 401 ∧ auth.isSome = true ∧ aH = none ∧ final.wwwAuthenticate = true) →
      (doRequestTo auth none uri aH (rs ++ final :: rest) 0 [] 0).events
          = List.replicate 20 Ev.redirect ++ [Ev.response, Ev.data, Ev.ended] ∧
      (doRequestTo auth none uri aH (rs ++ final :: rest) 0 [] 0).finalStatus
          = some final.status) ∧
    (rs.length = 21 → ∀ (rest : List Resp),
      (doRequestTo auth none uri aH (rs ++ rest) 0 [] 0).events
          = List.replicate 20 Ev.redirect ++ [Ev.error] ∧
      (doRequestTo auth none uri aH (rs ++ rest) 0 [] 0).issued.length = 21 ∧
      (doRequestTo auth none uri aH (rs ++ rest) 0 [] 0).finalStatus = none) := by
  constructor
  · intro hlen final rest hfin hret
    have h := doRequestTo_redirect_chain auth rs hall 0 (by omega) uri aH [] 0 final rest hfin hret
    rw [hlen] at h
    exact ⟨h.1, h.2.1⟩
  · intro hlen rest
    have hne : rs ≠ [] := by
      intro hx
      rw [hx] at hlen
      simp at hlen
    have h := doRequestTo_redirect_loop auth rs hall 0 (by omega) hne uri aH [] 0 rest
    rw [hlen] at h
    exact ⟨h.1, h.2.1, h.2.2⟩

/-- A redirect hop used by the C3 witness. -/
def redHop : Resp :=
  { status := 301, wwwAuthenticate := false, setCookie := [], location := "http://s.example/next" }

/-- The terminal response used by the witnesses. -/
def okResp : Resp := { status := 200, wwwAuthenticate := false, setCookie := [], location := "" }

/-- C3 witness: the theorem applied to a concrete 20-hop chain ending in a 200
and to a concrete 21-hop chain. -/
theorem c3_redirect_ceiling_witness :
    ((doRequestTo none none "http://s.example/" none
        (List.replicate 20 redHop ++ [okResp]) 0 [] 0).events
      = List.replicate 20 Ev.redirect ++ [Ev.response, Ev.data, Ev.ended]) ∧
    ((doRequestTo none none "http://s.example/" none
        (List.replicate 21 redHop) 0 [] 0).events
      = List.replicate 20 Ev.redirect ++ [Ev.error]) ∧
    ((doRequestTo none none "http://s.example/" none
        (List.replicate 21 redHop) 0 [] 0).issued.length = 21) := by
  have hall20 : ∀ r ∈ List.replicate 20 redHop, 300 ≤ r.status ∧ r.status < 400 := by
    intro r hr
    rw [List.eq_of_mem_replicate hr]
    decide
  have hall21 : ∀ r ∈ List.replicate 21 redHop, 300 ≤ r.status ∧ r.status < 400 := by
    intro r hr
    rw [List.eq_of_mem_replicate hr]
    decide
  have h20 := (c3_redirect_ceiling none "http://s.example/" none
    (List.replicate 20 redHop) hall20).1 (by simp) okResp [] (by decide) (by decide)
  have h21 := (c3_redirect_ceiling none "http://s.example/" none
    (List.replicate 21 redHop) hall21).2 (by simp) []
  rw [List.append_nil] at h21
  exact ⟨h20.1, h21.1, h21.2.1⟩

/-- C5 amended: the cookie-store writes of a run are exactly one
`setCookie(value, finalUri)` call per accumulated value, in order, when the
run surfaces a final response, and nothing otherwise (error, redirect-loop
failure, or an abort observed on resuming from a hop's request). The
accumulated values are those collected by `collectCookies`: every consumed
response's `set-cookie` values except those of a 401 response that triggers
the authentication retry, which are discarded. An abort during the final
body read arrives after the commit (the `finalStatus.isSome` case). -/
theorem c5_cookie_commit (auth : Option Auth) (abortFrom : Option Nat) :
    ∀ (responses : List Resp) (uri : String) (aH : Option String) (d : Nat)
      (g : List (List String)) (k : Nat),
      (doRequestTo auth abortFrom uri aH responses d g k).committed =
        if (doRequestTo auth abortFrom uri aH responses d g k).finalStatus.isSome then
          (collectCookies auth aH responses d g).flatten.map
            (fun v => (v, (doRequestTo auth abortFrom uri aH responses d g k).finalUri))
        else [] := by
  intro responses
  induction responses with
  | nil =>
      intro uri aH d g k
      cases hab : isAborted abortFrom (k + 1) <;> simp [doRequestTo, hab]
  | cons resp rest ih =>
      intro uri aH d g k
      cases hab : isAborted abortFrom (k + 1) with
      | true => simp [doRequestTo, hab]
      | false =>
          by_cases hret : resp.status = 401 ∧ auth.isSome = true ∧ aH = none ∧
              resp.wwwAuthenticate = true
          · obtain ⟨h401, hsome, hnone, hw⟩ := hret
            obtain ⟨a, rfl⟩ := Option.isSome_iff_exists.mp hsome
            subst hnone
            rw [doRequestTo_cons_retry abortFrom uri resp rest d g k a hab h401 hw]
            have hcc : collectCookies (some a) none (resp :: rest) d g =
                collectCookies (some a) (some (authBasic a)) rest d g := by
              simp [collectCookies, h401, hw]
            rw [hcc]
            simpa using ih uri (some (authBasic a)) d g (k + 1)
          · by_cases h3 : 300 ≤ resp.status ∧ resp.status < 400
            · by_cases h21 : d + 1 = 21
              · rw [doRequestTo_cons_loop_error auth abortFrom uri aH resp rest d g k hab hret
                  h3 h21]
                simp
              · rw [doRequestTo_cons_redirect auth abortFrom uri aH resp rest d g k hab hret
                  h3 h21]
                have hcc : collectCookies auth aH (resp :: rest) d g =
                    collectCookies auth aH rest (d + 1)
                      (if resp.setCookie.isEmpty then g else g ++ [resp.setCookie]) := by
                  simp [collectCookies, hret, h3, h21]
                rw [hcc]
                simpa using ih resp.location aH (d + 1)
                  (if resp.setCookie.isEmpty then g else g ++ [resp.setCookie]) (k + 1)
            · rw [doRequestTo_cons_final auth abortFrom uri aH resp rest d g k hab hret h3]
              have hcc : collectCookies auth aH (resp :: rest) d g =
                  (if resp.setCookie.isEmpty then g else g ++ [resp.setCookie]) := by
                simp [collectCookies, hret, h3]
              rw [hcc]
              simp

/-- The 401 challenge response carrying a cookie, for the C5 counterexample. -/
def challengeWithCookie : Resp :=
  { status := 401, wwwAuthenticate := true, setCookie := ["sid=1"], location := "" }

/-- A final 200 response carrying a cookie, for the C5 counterexample. -/
def okWithCookie : Resp :=
  { status := 200, wwwAuthenticate := false, setCookie := ["a=1"], location := "" }

/-- C5 counterexample, refuting the claim on two counts. First: with
credentials configured, a 401 challenge carrying `Set-Cookie: sid=1` triggers
the auth retry, whose handler returns before the cookie-gathering step, so the
operation completes (final status 200) with no `setCookie` call at all — the
observed value is never appended. Second: an operation whose abort lands
during the final body read ends in `abort` yet has already written the
gathered cookie to the store, so "an operation that ends in abort never
writes" also fails. -/
theorem c5_counterexample :
    ((doRequestTo (some ⟨"u", "p"⟩) none "http://x.example/" none
        [challengeWithCookie, okResp] 0 [] 0).finalStatus = some 200 ∧
     challengeWithCookie.setCookie = ["sid=1"] ∧
     (doRequestTo (some ⟨"u", "p"⟩) none "http://x.example/" none
        [challengeWithCookie, okResp] 0 [] 0).committed = []) ∧
    ((doRequestTo none (some 2) "http://y.example/" none [okWithCookie] 0 [] 0).events
        = [Ev.response, Ev.abort] ∧
     (doRequestTo none (some 2) "http://y.example/" none [okWithCookie] 0 [] 0).committed
        = [("a=1", "http://y.example/")]) := by
  decide

/-- C6: with credentials configured, a 401 response carrying
`WWW-Authenticate`, received when the `Authorization` header is unset,
triggers exactly one retry of the same URL whose `Authorization` header is
`"Basic "` followed by the base64 of `user:pass`; a second 401 on the retry is
surfaced as the final status, with no third request. -/
theorem c6_auth_retry_once (a : Auth) (uri : String) (r1 r2 : Resp) (rest : List Resp)
    (h1 : r1.status = 401) (hw : r1.wwwAuthenticate = true) (h2 : r2.status = 401) :
    (doRequestTo (some a) none uri none (r1 :: r2 :: rest) 0 [] 0).issued =
        [⟨uri, none⟩, ⟨uri, some ("Basic " ++ base64String (a.user ++ ":" ++ a.pass))⟩] ∧
    (doRequestTo (some a) none uri none (r1 :: r2 :: rest) 0 [] 0).finalStatus = some 401 ∧
    (doRequestTo (some a) none uri none (r1 :: r2 :: rest) 0 [] 0).events
        = [Ev.response, Ev.data, Ev.ended] := by
  have h3 : ¬ (300 ≤ r2.status ∧ r2.status < 400) := by omega
  have hret2 : ¬ (r2.status = 401 ∧ (some a).isSome = true ∧
      (some (authBasic a) : Option String) = none ∧ r2.wwwAuthenticate = true) := by
    rintro ⟨-, -, hx, -⟩
    exact Option.some_ne_none _ hx
  rw [doRequestTo_cons_retry none uri r1 (r2 :: rest) 0 [] 0 a rfl h1 hw,
    doRequestTo_cons_final (some a) none uri (some (authBasic a)) r2 rest 0 [] 1 rfl hret2 h3]
  simp [authBasic, h2, isAborted]

/-- The bare 401 challenge used by the C6 witness. -/
def bareChallenge : Resp :=
  { status := 401, wwwAuthenticate := true, setCookie := [], location := "" }

/-- C6 witness: the theorem applied to concrete credentials user/pass and two
concrete 401 challenges; the retry carries base64("user:pass"). -/
theorem c6_auth_retry_once_witness :
    (doRequestTo (some ⟨"user", "pass"⟩) none "http://e.example/" none
        [bareChallenge, bareChallenge] 0 [] 0).issued =
      [⟨"http://e.example/", none⟩, ⟨"http://e.example/", some "Basic dXNlcjpwYXNz"⟩] ∧
    (doRequestTo (some ⟨"user", "pass"⟩) none "http://e.example/" none
        [bareChallenge, bareChallenge] 0 [] 0).finalStatus = some 401 := by
  have h := c6_auth_retry_once ⟨"user", "pass"⟩ "http://e.example/" bareChallenge bareChallenge
    [] rfl rfl rfl
  have hb : ("Basic " ++ base64String ("user" ++ ":" ++ "pass")) = "Basic dXNlcjpwYXNz" := by
    rfl
  rw [hb] at h
  exact ⟨h.1, h.2.1⟩


/-! ## Preflight request construction (xhr-utils.js lines 238-307 and 394-420) -/

/-- Writing a fresh key appends it. -/
theorem objSet_append (m : List (String × String)) (k v : String)
    (h : ∀ p ∈ m, p.1 ≠ k) : objSet m k v = m ++ [(k, v)] := by
  unfold objSet
  have hc : (m.any fun p => p.1 = k) = false := by
    rw [List.any_eq_false]
    intro p hp
    simpa using h p hp
  rw [hc]
  simp

/-- `objSet` preserves key distinctness. -/
theorem objSet_keys_nodup (m : List (String × String)) (k v : String)
    (h : (m.map Prod.fst).Nodup) : ((objSet m k v).map Prod.fst).Nodup := by
  unfold objSet
  split
  case isTrue hc =>
    have hkeys : (m.map fun p => if p.1 = k then (k, v) else p).map Prod.fst
        = m.map Prod.fst := by
      rw [List.map_map]
      apply List.map_congr_left
      intro p hp
      by_cases hpk : p.1 = k
      · simp [Function.comp, hpk]
      · simp [Function.comp, hpk]
    rw [hkeys]
    exact h
  case isFalse hc =>
    rw [List.any_eq_true] at hc
    push_neg at hc
    rw [List.map_append]
    simp only [List.map_cons, List.map_nil]
    rw [List.nodup_append]
    refine ⟨h, List.nodup_singleton k, ?_⟩
    intro a ha hb
    simp only [List.mem_singleton] at hb
    subst hb
    obtain ⟨p, hp, hpk⟩ := List.mem_map.mp ha
    exact (hc p hp) (by simpa using hpk)

/-- A conditional `objSet` preserves key distinctness. -/
theorem ite_objSet_keys_nodup (c : Prop) [Decidable c] (m : List (String × String))
    (k v : String) (h : (m.map Prod.fst).Nodup) :
    (((if c then objSet m k v else m)).map Prod.fst).Nodup := by
  split
  · exact objSet_keys_nodup m k v h
  · exact h

/-- Source lines 238-307: the augmented `requestHeaders` object the real
request is sent with. The caller's headers are copied, then `Referer`,
`User-Agent`, `Accept-Language`, `Accept-Encoding` and `Accept` defaults are
injected when no case-variant exists among the caller's headers, `Origin` is
set for cross-origin requests, the cookie jar's answer is written under
`Cookie` when cookies apply (`cookieString` models the jar's reply, treated as
delivered before the request is issued), and `Content-Type` defaults to
text/plain when a body is present without one. -/
def buildRequestHeaders (flag : Flag) (targetOrigin : String) (cookieString : Option String) :
    List (String × String) :=
  let h0 := flag.requestHeaders
  let h1 := if (getRequestHeader h0 "referer").isNone then objSet h0 "Referer" flag.referrer
    else h0
  let h2 := if (getRequestHeader h0 "user-agent").isNone then objSet h1 "User-Agent" flag.userAgent
    else h1
  let h3 := if (getRequestHeader h0 "accept-language").isNone then objSet h2 "Accept-Language" "en"
    else h2
  let h4 := if (getRequestHeader h0 "accept-encoding").isNone then
      objSet h3 "Accept-Encoding" "gzip,deflate"
    else h3
  let h5 := if (getRequestHeader h0 "accept").isNone then objSet h4 "Accept" "*/*" else h4
  let h6 := if flag.origin != targetOrigin then objSet h5 "Origin" flag.origin else h5
  let h7 := match cookieString with
    | some cs =>
        if flag.cookieJar && (!(flag.origin != targetOrigin) || flag.withCredentials) && (cs != "")
        then objSet h6 "Cookie" cs else h6
    | none => h6
  let hasBody := flag.body.isSome && flag.body != some "" &&
    !(upperStr flag.method == "HEAD" || upperStr flag.method == "GET")
  if hasBody && (getRequestHeader h0 "content-type").isNone then
    objSet h7 "Content-Type" "text/plain;charset=UTF-8"
  else h7

/-- Distinct caller header keys stay distinct through the augmentation. -/
theorem buildRequestHeaders_keys_nodup (flag : Flag) (targetOrigin : String)
    (cookieString : Option String) (h : (flag.requestHeaders.map Prod.fst).Nodup) :
    ((buildRequestHeaders flag targetOrigin cookieString).map Prod.fst).Nodup := by
  unfold buildRequestHeaders
  apply ite_objSet_keys_nodup
  cases cookieString with
  | none =>
      apply ite_objSet_keys_nodup
      apply ite_objSet_keys_nodup
      apply ite_objSet_keys_nodup
      apply ite_objSet_keys_nodup
      apply ite_objSet_keys_nodup
      apply ite_objSet_keys_nodup
      exact h
  | some cs =>
      apply ite_objSet_keys_nodup
      apply ite_objSet_keys_nodup
      apply ite_objSet_keys_nodup
      apply ite_objSet_keys_nodup
      apply ite_objSet_keys_nodup
      apply ite_objSet_keys_nodup
      apply ite_objSet_keys_nodup
      exact h

/-- Source lines 394-420: the headers of the preflight OPTIONS request. The
loop copies from the augmented `requestHeaders` exactly the entries whose
lower-cased key is `origin` or `referrer` (note: the injected referrer header
is spelled `Referer`, which does not match), then sets
`Access-Control-Request-Method` to `flag.method`, joins the non-simple header
names of the caller's headers with a comma and a space into
`Access-Control-Request-Headers` when any exist, and finally sets
`User-Agent` to `flag.userAgent`. -/
def preflightRequestHeadersDef (flag : Flag) (targetOrigin : String)
    (cookieString : Option String) : List (String × String) :=
  let rh := buildRequestHeaders flag targetOrigin cookieString
  let p0 := rh.foldl
    (fun acc p => if lowerStr p.1 = "origin" ∨ lowerStr p.1 = "referrer"
      then objSet acc p.1 p.2 else acc) []
  let p1 := objSet p0 "Access-Control-Request-Method" flag.method
  let p2 := if !(nonSimpleHeaders flag.requestHeaders).isEmpty
    then objSet p1 "Access-Control-Request-Headers"
      (String.intercalate ", " (nonSimpleHeaders flag.requestHeaders))
    else p1
  objSet p2 "User-Agent" flag.userAgent

/-- The copy loop of the preflight construction equals a filter when the
source keys are distinct from each other and from the accumulator. -/
theorem copy_fold_eq_filter (rh : List (String × String)) :
    ∀ (acc : List (String × String)), (rh.map Prod.fst).Nodup →
    (∀ p ∈ rh, ∀ q ∈ acc, q.1 ≠ p.1) →
    rh.foldl (fun acc p => if lowerStr p.1 = "origin" ∨ lowerStr p.1 = "referrer"
        then objSet acc p.1 p.2 else acc) acc =
      acc ++ rh.filter (fun p => lowerStr p.1 = "origin" ∨ lowerStr p.1 = "referrer") := by
  induction rh with
  | nil =>
      intro acc hnd hdisj
      simp
  | cons p rh' ih =>
      intro acc hnd hdisj
      simp only [List.foldl_cons, List.filter_cons]
      rw [List.map_cons] at hnd
      obtain ⟨hhead, hndtail⟩ := List.nodup_cons.mp hnd
      by_cases hp : lowerStr p.1 = "origin" ∨ lowerStr p.1 = "referrer"
      · rw [if_pos hp]
        rw [objSet_append acc p.1 p.2 (fun q hq => hdisj p (by simp) q hq)]
        have hdisj2 : ∀ x ∈ rh', ∀ q ∈ acc ++ [(p.1, p.2)], q.1 ≠ x.1 := by
          intro x hx q hq
          rcases List.mem_append.mp hq with hqa | hqp
          · exact hdisj x (by simp [hx]) q hqa
          · simp only [List.mem_singleton] at hqp
            subst hqp
            intro hcontra
            refine hhead ?_
            simp only [List.mem_map]
            exact ⟨x, hx, hcontra.symm⟩
        rw [ih (acc ++ [(p.1, p.2)]) hndtail hdisj2]
        have hdec : (decide (lowerStr p.1 = "origin" ∨ lowerStr p.1 = "referrer")) = true := by
          simpa using hp
        rw [hdec]
        simp
      · rw [if_neg hp]
        have hdec : (decide (lowerStr p.1 = "origin" ∨ lowerStr p.1 = "referrer")) = false := by
          simpa using hp
        rw [hdec]
        simp only [Bool.false_eq_true, if_false]
        exact ih acc hndtail (fun x hx q hq => hdisj x (by simp [hx]) q hq)


/-- A header whose lower-cased name is origin or referrer differs from any
name whose lower-casing is neither. -/
theorem filtered_key_ne (q : String × String)
    (hq : lowerStr q.1 = "origin" ∨ lowerStr q.1 = "referrer") (k : String)
    (hk : ¬ (lowerStr k = "origin" ∨ lowerStr k = "referrer")) : q.1 ≠ k := by
  intro h
  rw [h] at hq
  exact hk hq

/-- C7 amended: the preflight OPTIONS request carries exactly: the headers of
the real request whose lower-cased name is `origin` or `referrer` — so the
auto-injected `Referer` header (one r) is never copied — followed by
`Access-Control-Request-Method` set to the real method, then, when non-simple
caller headers exist, `Access-Control-Request-Headers` equal to those names
joined by comma-space in their original case (not lower-cased), and finally a
`User-Agent` header set to the configured user agent; and no other header. -/
theorem c7_preflight_headers (flag : Flag) (targetOrigin : String) (cookieString : Option String)
    (hnd : (flag.requestHeaders.map Prod.fst).Nodup) :
    preflightRequestHeadersDef flag targetOrigin cookieString =
      (buildRequestHeaders flag targetOrigin cookieString).filter
        (fun p => lowerStr p.1 = "origin" ∨ lowerStr p.1 = "referrer")
      ++ [("Access-Control-Request-Method", flag.method)]
      ++ (if (nonSimpleHeaders flag.requestHeaders).isEmpty then []
          else [("Access-Control-Request-Headers",
            String.intercalate ", " (nonSimpleHeaders flag.requestHeaders))])
      ++ [("User-Agent", flag.userAgent)] := by
  have hnd2 := buildRequestHeaders_keys_nodup flag targetOrigin cookieString hnd
  have hdisj0 : ∀ p ∈ buildRequestHeaders flag targetOrigin cookieString,
      ∀ q ∈ ([] : List (String × String)), q.1 ≠ p.1 := by
    intro p hp q hq
    exact absurd hq (List.not_mem_nil q)
  simp only [preflightRequestHeadersDef]
  rw [copy_fold_eq_filter (buildRequestHeaders flag targetOrigin cookieString) [] hnd2 hdisj0,
    List.nil_append]
  have hfltmem : ∀ q ∈ (buildRequestHeaders flag targetOrigin cookieString).filter
      (fun p => lowerStr p.1 = "origin" ∨ lowerStr p.1 = "referrer"),
      lowerStr q.1 = "origin" ∨ lowerStr q.1 = "referrer" := by
    intro q hq
    have hq2 := (List.mem_filter.mp hq).2
    simpa using hq2
  rw [objSet_append _ "Access-Control-Request-Method" flag.method
    (by
      intro q hq
      exact filtered_key_ne q (hfltmem q hq) _ (by decide))]
  by_cases hemp : (nonSimpleHeaders flag.requestHeaders).isEmpty = true
  · rw [hemp]
    simp only [Bool.not_true, Bool.false_eq_true, if_false]
    rw [objSet_append _ "User-Agent" flag.userAgent
      (by
        intro q hq
        rcases List.mem_append.mp hq with hqf | hqm
        · exact filtered_key_ne q (hfltmem q hqf) _ (by decide)
        · simp only [List.mem_singleton] at hqm
          subst hqm
          show "Access-Control-Request-Method" ≠ "User-Agent"
          decide)]
    simp [List.append_assoc]
  · rw [Bool.not_eq_true] at hemp
    rw [hemp]
    simp only [Bool.not_false, if_true, Bool.false_eq_true, if_false]
    rw [objSet_append _ "Access-Control-Request-Headers"
      (String.intercalate ", " (nonSimpleHeaders flag.requestHeaders))
      (by
        intro q hq
        rcases List.mem_append.mp hq with hqf | hqm
        · exact filtered_key_ne q (hfltmem q hqf) _ (by decide)
        · simp only [List.mem_singleton] at hqm
          subst hqm
          show "Access-Control-Request-Method" ≠ "Access-Control-Request-Headers"
          decide)]
    rw [objSet_append _ "User-Agent" flag.userAgent
      (by
        intro q hq
        rcases List.mem_append.mp hq with hq1 | hq2
        · rcases List.mem_append.mp hq1 with hqf | hqm
          · exact filtered_key_ne q (hfltmem q hqf) _ (by decide)
          · simp only [List.mem_singleton] at hqm
            subst hqm
            show "Access-Control-Request-Method" ≠ "User-Agent"
            decide
        · simp only [List.mem_singleton] at hq2
          subst hq2
          show "Access-Control-Request-Headers" ≠ "User-Agent"
          decide)]

/-- The claim's allowed preflight header names: Origin and Referer copies plus
the two Access-Control-Request headers. -/
def claimC7HeaderName (k : String) : Bool :=
  lowerStr k == "origin" || lowerStr k == "referer" ||
  k == "Access-Control-Request-Method" || k == "Access-Control-Request-Headers"

/-- The concrete cross-origin request of the C7 counterexample: one
non-simple caller header, a referrer and a user agent configured. -/
def c7Flag : Flag :=
  { method := "POST", origin := "http://a.example",
    requestHeaders := [("X-Test", "1")], referrer := "http://a.example/page",
    userAgent := "UA", withCredentials := false, auth := none, body := none,
    formData := false, cookieJar := false }

/-- C7 counterexample: for a concrete preflighted request the OPTIONS headers
are Origin, Access-Control-Request-Method, Access-Control-Request-Headers
(with the name `X-Test` in its original case, not lower-cased) and
`User-Agent` — so a header outside the claim's exhaustive list is present
(User-Agent), the `Referer` header of the real request is not copied, and the
claim is false at this input. -/
theorem c7_counterexample :
    preflightRequestHeadersDef c7Flag "http://b.example" none =
      [("Origin", "http://a.example"),
       ("Access-Control-Request-Method", "POST"),
       ("Access-Control-Request-Headers", "X-Test"),
       ("User-Agent", "UA")] ∧
    ((preflightRequestHeadersDef c7Flag "http://b.example" none).map Prod.fst).all
        claimC7HeaderName = false ∧
    requiresPreflightB c7Flag "http://b.example" false = true ∧
    objGet (buildRequestHeaders c7Flag "http://b.example" none) "Referer"
      = some "http://a.example/page" := by
  decide

/-- C7 witness: the amended theorem applied to the concrete request, its
distinct-keys hypothesis discharged by evaluation. -/
theorem c7_preflight_headers_witness :
    preflightRequestHeadersDef c7Flag "http://b.example" none =
      (buildRequestHeaders c7Flag "http://b.example" none).filter
        (fun p => lowerStr p.1 = "origin" ∨ lowerStr p.1 = "referrer")
      ++ [("Access-Control-Request-Method", c7Flag.method)]
      ++ (if (nonSimpleHeaders c7Flag.requestHeaders).isEmpty then []
          else [("Access-Control-Request-Headers",
            String.intercalate ", " (nonSimpleHeaders c7Flag.requestHeaders))])
      ++ [("User-Agent", c7Flag.userAgent)] :=
  c7_preflight_headers c7Flag "http://b.example" none (by decide)

end JsdomFetch
